import Mathlib

/-!
A shallow embedding of `EnumerateUSBDevices` from
`src/ToolsLibraryHelper/ToolsLibraryHelper.cpp` (lines 74-194), together with
theorems settling the specification claims about it.

The OS and allocator calls made by the function (SetupDiGetClassDevsW,
SetupDiEnumDeviceInfo, SetupDiEnumDeviceInterfaces,
SetupDiGetDeviceInterfaceDetailW, CoTaskMemAlloc, CreateFile, GetLastError)
are modelled by an oracle environment `Env`: each call site reads its outcome
from the corresponding oracle field, indexed by the device ordinal and the
interface ordinal at that call site.  The control flow of the source is
translated statement by statement; `__finally` blocks are translated by
placing their effect on every path out of the corresponding `__try` block,
which is exactly the semantics of `__try`/`__finally` in the absence of
thrown exceptions (no call in this function throws).

Memory is modelled as an unbounded store `slots : Nat → EnumeratedUSBDevice`,
initially all zero (the source zeroes the allocation at line 100); the
allocation itself holds `cDevices` slots, and the returned array is the view
of the store on indices `0, ..., cDevices - 1`.  Writes of the class
identifier performed by line 107 are additionally recorded in a trace
`guidWrites`, so that a write at an index not smaller than the number of
allocated slots — an out-of-bounds write in the source — is observable in the
model.  Session open/close and detail-buffer allocate/free are recorded in an
event trace `events` for the resource-safety claims.
-/

namespace ToolsLibraryHelper

/-- Output slot: mirrors `struct EnumeratedUSBDevice` (lines 68-72).  A GUID
is modelled as a `Nat` standing for its 128-bit value; the path is an
`Option` of a wide-character string (itself a list of code units), with
`none` standing for a null pointer. -/
structure EnumeratedUSBDevice where
  guidInterface : Nat
  wszInterfacePath : Option (List Nat)
  deriving Repr, DecidableEq

/-- Zeroed output slot, as produced by the `Zero(pResult, cbResult)` call at
line 100: zero GUID and null path. -/
def zeroSlot : EnumeratedUSBDevice := { guidInterface := 0, wszInterfacePath := none }

/-- HRESULT code `E_OUTOFMEMORY` assigned at lines 150, 164 and 176. -/
def E_OUTOFMEMORY : Nat := 0x8007000E

/-- Model of the `HRESULT_FROM_WIN32` macro applied to a `GetLastError`
value, as in `HError()` (lines 38-41): a zero Win32 error code maps to 0
(`S_OK`), a nonzero one to `(e & 0xFFFF) | 0x80070000`, a failure HRESULT
with the high bit and the WIN32 facility set. -/
def HRESULT_FROM_WIN32 (e : Nat) : Nat :=
  if e = 0 then 0 else (e % 65536) ||| 0x80070000

/-- Oracle environment describing the outcomes of the OS and allocator calls
made during one call of `EnumerateUSBDevices`.

The device set is stable during the call: `SetupDiEnumDeviceInfo(h, i, ·)`
succeeds exactly when `i < nDevices` (both in the counting pass at line 90
and in the fill pass at line 111), and
`SetupDiEnumDeviceInterfaces(h, dev i, g, j, ·)` at line 117 succeeds exactly
when `j < nInterfaces i`.  `openOk` is the outcome of `SetupDiGetClassDevsW`
at line 81 and `openLastError` the `GetLastError` value the source stores in
its local variable `err` at line 186 when that call fails (a local that is
never read afterwards).  `allocArrayOk` is the outcome of the output-array
allocation at line 99; `detailAllocOk i j` the outcome of the detail-buffer
allocation at line 122; `detailQueryOk i j` the outcome of the filling
`SetupDiGetDeviceInterfaceDetailW` call at line 129, and `devicePath i j` the
path it yields; `dupOk i j` the outcome of the allocation inside
`AllocCopyString` at line 131; `createFileOk i j` the outcome of `CreateFile`
at line 134; and `lastError i j` the `GetLastError` value read by the
`HError()` call of iteration `(i, j)` (at most one of the two `HError()`
sites at lines 147 and 156 runs in one iteration). -/
structure Env where
  openOk : Bool
  openLastError : Nat
  nDevices : Nat
  nInterfaces : Nat → Nat
  allocArrayOk : Bool
  detailAllocOk : Nat → Nat → Bool
  detailQueryOk : Nat → Nat → Bool
  devicePath : Nat → Nat → List Nat
  dupOk : Nat → Nat → Bool
  createFileOk : Nat → Nat → Bool
  lastError : Nat → Nat → Nat

/-- Resource events recorded during a call: session open (line 81, with its
outcome), session close (`SetupDiDestroyDeviceInfoList`, line 182),
detail-buffer allocation for interface `j` of device `i` (line 122, with its
outcome), and detail-buffer free (line 160). -/
inductive Event where
  | openSession (ok : Bool)
  | closeSession
  | allocDetail (i j : Nat) (ok : Bool)
  | freeDetail (i j : Nat)
  deriving Repr, DecidableEq

/-- Event is a successful detail-buffer allocation. -/
def isAllocDetailOk : Event → Bool
  | Event.allocDetail _ _ ok => ok
  | _ => false

/-- Event is a detail-buffer allocation attempt (successful or not) for
device `d`. -/
def isAllocDetailOf (d : Nat) : Event → Bool
  | Event.allocDetail i _ _ => i == d
  | _ => false

/-- Event is a detail-buffer free. -/
def isFreeDetail : Event → Bool
  | Event.freeDetail _ _ => true
  | _ => false

/-- Event is a session close. -/
def isCloseSession : Event → Bool
  | Event.closeSession => true
  | _ => false

/-- Event is a successful session open. -/
def isOpenSessionOk : Event → Bool
  | Event.openSession ok => ok
  | _ => false

/-- Model of `AllocCopyString` (lines 30-37): when the allocation succeeds
the string is copied verbatim, otherwise the null pointer is returned.  The
allocation outcome is the oracle argument `ok`. -/
def AllocCopyString (ok : Bool) (wsz : List Nat) : Option (List Nat) :=
  if ok then some wsz else none

/-- State threaded through the two passes: the current HRESULT `hr`, the
memory store `slots`, the trace `guidWrites` of slot indices written by the
class-identifier assignment at line 107, and the resource-event trace. -/
structure St where
  hr : Nat
  slots : Nat → EnumeratedUSBDevice
  guidWrites : List Nat
  events : List Event

/-- Class-identifier write at line 107: `pResult[iResult].guidInterface =
guidInterfaceClass`, recorded in the write trace. -/
def writeGuid (guid : Nat) (i : Nat) (st : St) : St :=
  { st with
      slots := Function.update st.slots i
        { guidInterface := guid, wszInterfacePath := (st.slots i).wszInterfacePath },
      guidWrites := st.guidWrites ++ [i] }

/-- Body of the inner interface loop (lines 117-165) for interface `j` of
device `i`, given that `SetupDiEnumDeviceInterfaces` succeeded: size query
(line 121), detail-buffer allocation (line 122); on success, a `__try` block
performing the filling detail query (line 129), path duplication and store
into slot `i` (line 131), and the `CreateFile` probe (lines 134-147), with
the detail buffer freed by the `__finally` block (line 160) on every path;
on allocation failure, `hr = E_OUTOFMEMORY` (line 164).  Note that the loop
itself never tests `hr`: the body runs for every interface the OS reports,
regardless of earlier errors. -/
def innerStep (env : Env) (i j : Nat) (st : St) : St :=
  if env.detailAllocOk i j then
    if env.detailQueryOk i j then
      -- line 131: the duplicated path (or null) is stored into slot i in
      -- every case; lines 134-150 then decide the new hr: unchanged when
      -- CreateFile succeeds, HError() when it fails, E_OUTOFMEMORY when the
      -- duplication returned null.  The __finally block at line 160 frees
      -- the detail buffer on each of these paths.
      let dup : Option (List Nat) := AllocCopyString (env.dupOk i j) (env.devicePath i j)
      { st with
          hr :=
            if dup.isSome then
              if env.createFileOk i j then st.hr
              else HRESULT_FROM_WIN32 (env.lastError i j)
            else E_OUTOFMEMORY,
          slots := Function.update st.slots i
            { guidInterface := (st.slots i).guidInterface, wszInterfacePath := dup },
          events := st.events ++ [Event.allocDetail i j true, Event.freeDetail i j] }
    else
      -- line 156: the filling detail query failed; slot i is not written,
      -- hr = HError(), and the __finally block still frees the buffer.
      { st with
          hr := HRESULT_FROM_WIN32 (env.lastError i j),
          events := st.events ++ [Event.allocDetail i j true, Event.freeDetail i j] }
  else
    -- line 164: detail-buffer allocation failed.
    { st with hr := E_OUTOFMEMORY, events := st.events ++ [Event.allocDetail i j false] }

/-- Inner interface loop of device `i` run over interface ordinals
`0, ..., m - 1`; in the source the loop exits when
`SetupDiEnumDeviceInterfaces` fails, which the oracle makes happen exactly at
ordinal `m = nInterfaces i` (line 167). -/
def innerLoopAux (env : Env) (i : Nat) (m : Nat) (st : St) : St :=
  (List.range m).foldl (fun s j => innerStep env i j s) st

/-- Inner interface loop of device `i` (lines 115-168). -/
def innerLoop (env : Env) (i : Nat) (st : St) : St :=
  innerLoopAux env i (env.nInterfaces i) st

/-- Fill pass (lines 104-172): `for (int iResult = 0; !hr; iResult++)`.  The
argument `remaining` equals `nDevices - i`, so the `SetupDiEnumDeviceInfo`
test at line 111 succeeds exactly when `remaining` is a successor.  Each
iteration that passes the `!hr` test first performs the class-identifier
write at line 107 — before the device-existence test — and only then decides
whether to run the inner loop or break. -/
def fillLoop (env : Env) (guid : Nat) : Nat → Nat → St → St
  | 0, i, st =>
      if st.hr ≠ 0 then st else writeGuid guid i st
  | remaining + 1, i, st =>
      if st.hr ≠ 0 then st
      else fillLoop env guid remaining (i + 1) (innerLoop env i (writeGuid guid i st))

/-- Counting pass (lines 87-95): probes ordinals `0, 1, 2, ...` until
`SetupDiEnumDeviceInfo` fails.  `fuel` bounds the iteration; with
`fuel = nDevices` the loop runs to completion (see `countDevices_eq`). -/
def countLoop (env : Env) (fuel i : Nat) : Nat :=
  match fuel with
  | 0 => i
  | f + 1 => if i < env.nDevices then countLoop env f (i + 1) else i

/-- Result of the counting pass, the value of `cDevices` after line 95. -/
def countDevices (env : Env) : Nat := countLoop env env.nDevices 0

/-- Outcome of a call to `EnumerateUSBDevices`.  When the call returns
normally, `crashed` is false and the record carries the returned `BOOL`
(`success`), the value stored through `pcDevices`, and the array stored
through `ppResult` (`none` for a null pointer, otherwise the list of its
slots), together with the model-level write and event traces.

When `crashed` is true the call never returns to the caller: with the
output-array allocation failed and a nonzero device count, the
`Zero(pResult, cbResult)` call at line 100 runs before the null test at line
101 and executes `memset(nullptr, 0, cbResult)` with `cbResult > 0`, an
access violation into the null page.  On that outcome `success`, `cDevices`,
`devices` and `guidWrites` are never delivered to the caller and the record
holds dummy values (`false`, `0`, `none`, `[]`); the event trace is still
meaningful, since the `__finally` termination handler at lines 179-183
closes the session while the exception unwinds. -/
structure EnumResult where
  success : Bool
  cDevices : Nat
  devices : Option (List EnumeratedUSBDevice)
  guidWrites : List Nat
  events : List Event
  crashed : Bool
  deriving Repr, DecidableEq

/-- State at entry to the fill pass after a successful session open: `hr =
S_OK` (line 77), zeroed memory (line 100), empty write trace, and the
session-open event recorded. -/
def initSt : St :=
  { hr := 0, slots := fun _ => zeroSlot, guidWrites := [],
    events := [Event.openSession true] }

/-- Model of `EnumerateUSBDevices` (lines 74-194).  On open failure the
source stores `GetLastError()` into the never-read local `err` and leaves
`hr` at `S_OK`, so the call returns TRUE with zero devices and a null array
(lines 185-193).  On open success: counting pass, then output-array
allocation (null iff `allocArrayOk` is false).  The allocation is passed to
`Zero(pResult, cbResult)` at line 100 before the null test at line 101, so:

* allocation succeeded: the array is zeroed, the fill pass runs, the
  `__finally` block closes the session (line 182), and the call returns
  `!hr` (line 193) with the count and the array;
* allocation failed with `cDevices > 0`: `memset(nullptr, 0, cbResult)` with
  `cbResult > 0` raises an access violation — line 176's
  `hr = E_OUTOFMEMORY` and the return are never reached, the call crashes
  (`crashed := true`) while the `__finally` termination handler still closes
  the session during unwind;
* allocation failed with `cDevices = 0`: `memset(nullptr, 0, 0)` touches no
  memory, the `else if (cDevices != 0)` test at line 174 leaves `hr` at
  `S_OK`, the session is closed, `cDevices` is reset to 0 for the null
  pointer (lines 188-189) and the call returns TRUE with a null array. -/
def EnumerateUSBDevices (env : Env) (guid : Nat) : EnumResult :=
  if env.openOk then
    let cDevices : Nat := countDevices env
    if env.allocArrayOk then
      let st1 : St := fillLoop env guid cDevices 0 initSt
      { success := st1.hr == 0,
        cDevices := cDevices,
        devices := some ((List.range cDevices).map st1.slots),
        guidWrites := st1.guidWrites,
        events := st1.events ++ [Event.closeSession],
        crashed := false }
    else if cDevices ≠ 0 then
      { success := false, cDevices := 0, devices := none, guidWrites := [],
        events := [Event.openSession true, Event.closeSession],
        crashed := true }
    else
      { success := true, cDevices := 0, devices := none, guidWrites := [],
        events := [Event.openSession true, Event.closeSession],
        crashed := false }
  else
    { success := true, cDevices := 0, devices := none, guidWrites := [],
      events := [Event.openSession false], crashed := false }

/-- All OS queries and allocations of device `i` succeed: detail-buffer
allocation, filling detail query, path duplication and `CreateFile`, for
every interface the device exposes. -/
def deviceClean (env : Env) (i : Nat) : Prop :=
  ∀ j, j < env.nInterfaces i →
    env.detailAllocOk i j = true ∧ env.detailQueryOk i j = true ∧
    env.dupOk i j = true ∧ env.createFileOk i j = true

instance (env : Env) (i : Nat) : Decidable (deviceClean env i) := by
  unfold deviceClean; infer_instance

/-- Concrete environment with `n` devices, one matching interface each, every
OS call and allocation succeeding, and distinct nonempty paths. -/
def happyEnv (n : Nat) : Env :=
  { openOk := true, openLastError := 0, nDevices := n, nInterfaces := fun _ => 1,
    allocArrayOk := true, detailAllocOk := fun _ _ => true,
    detailQueryOk := fun _ _ => true, devicePath := fun i j => [i + 1, j + 1],
    dupOk := fun _ _ => true, createFileOk := fun _ _ => true,
    lastError := fun _ _ => 1 }

/-- Environment where `SetupDiGetClassDevsW` fails with
`ERROR_ACCESS_DENIED` (5). -/
def envOpenFail : Env := { happyEnv 1 with openOk := false, openLastError := 5 }

/-- Environment with one matching device that exposes no matching
interface. -/
def envNoInterface : Env := { happyEnv 1 with nInterfaces := fun _ => 0 }

/-- Environment with two devices of two interfaces each where the path
duplication for interface 0 of device 0 fails and everything else
succeeds. -/
def envDupFail : Env :=
  { happyEnv 2 with
      nInterfaces := fun _ => 2,
      dupOk := fun i j => !(i == 0 && j == 0) }

/-- Environment where the output-array allocation fails after one device was
counted. -/
def envArrayAllocFail : Env := { happyEnv 1 with allocArrayOk := false }

/-- Environment where everything succeeds except the `CreateFile` probe. -/
def envCreateFileFail : Env := { happyEnv 1 with createFileOk := fun _ _ => false }

/-- Environment with one device exposing two matching interfaces, everything
succeeding. -/
def envTwoInterfaces : Env := { happyEnv 1 with nInterfaces := fun _ => 2 }

theorem countLoop_eq (env : Env) : ∀ f i, i + f = env.nDevices → countLoop env f i = env.nDevices := by
  intro f
  induction f with
  | zero => intro i h; simpa [countLoop] using h
  | succ f ih =>
      intro i h
      have hlt : i < env.nDevices := by omega
      rw [countLoop, if_pos hlt]
      exact ih (i + 1) (by omega)

theorem countDevices_eq (env : Env) : countDevices env = env.nDevices :=
  countLoop_eq env env.nDevices 0 (by omega)

theorem HRESULT_FROM_WIN32_ne_zero {e : Nat} (h : e ≠ 0) : HRESULT_FROM_WIN32 e ≠ 0 := by
  unfold HRESULT_FROM_WIN32
  rw [if_neg h]
  intro hz
  have h1 := Nat.testBit_lor (e % 65536) 0x80070000 31
  rw [hz] at h1
  simp at h1
  exact absurd h1.2 (by decide)

theorem writeGuid_hr (guid i : Nat) (st : St) : (writeGuid guid i st).hr = st.hr := rfl

theorem writeGuid_events (guid i : Nat) (st : St) : (writeGuid guid i st).events = st.events := rfl

theorem writeGuid_guidWrites (guid i : Nat) (st : St) :
    (writeGuid guid i st).guidWrites = st.guidWrites ++ [i] := rfl

theorem writeGuid_slots_ne (guid i : Nat) (st : St) {k : Nat} (h : k ≠ i) :
    (writeGuid guid i st).slots k = st.slots k := by
  simp [writeGuid, Function.update_noteq h]

theorem writeGuid_slots_self (guid i : Nat) (st : St) :
    (writeGuid guid i st).slots i =
      { guidInterface := guid, wszInterfacePath := (st.slots i).wszInterfacePath } := by
  simp [writeGuid]

theorem innerStep_guidWrites (env : Env) (i j : Nat) (st : St) :
    (innerStep env i j st).guidWrites = st.guidWrites := by
  unfold innerStep
  split <;> [split <;> rfl; rfl]

theorem innerStep_slots_ne (env : Env) (i j : Nat) (st : St) {k : Nat} (h : k ≠ i) :
    (innerStep env i j st).slots k = st.slots k := by
  unfold innerStep
  split <;> [split <;> simp [Function.update_noteq h]; rfl]

theorem innerStep_guid_self (env : Env) (i j : Nat) (st : St) :
    ((innerStep env i j st).slots i).guidInterface = (st.slots i).guidInterface := by
  unfold innerStep
  split <;> [split <;> simp; rfl]

theorem innerStep_events_allocOk (env : Env) (i j : Nat) (st : St)
    (h : env.detailAllocOk i j = true) :
    (innerStep env i j st).events =
      st.events ++ [Event.allocDetail i j true, Event.freeDetail i j] := by
  unfold innerStep
  rw [if_pos h]
  split <;> rfl

theorem innerStep_events_allocFail (env : Env) (i j : Nat) (st : St)
    (h : env.detailAllocOk i j = false) :
    (innerStep env i j st).events = st.events ++ [Event.allocDetail i j false] := by
  unfold innerStep
  rw [if_neg (by simp [h])]

theorem innerStep_clean_hr (env : Env) (i j : Nat) (st : St)
    (ha : env.detailAllocOk i j = true) (hq : env.detailQueryOk i j = true)
    (hd : env.dupOk i j = true) (hc : env.createFileOk i j = true) :
    (innerStep env i j st).hr = st.hr := by
  unfold innerStep
  rw [if_pos ha, if_pos hq]
  simp [AllocCopyString, hd, hc]

theorem innerStep_clean_slots (env : Env) (i j : Nat) (st : St)
    (ha : env.detailAllocOk i j = true) (hq : env.detailQueryOk i j = true)
    (hd : env.dupOk i j = true) :
    (innerStep env i j st).slots =
      Function.update st.slots i
        { guidInterface := (st.slots i).guidInterface,
          wszInterfacePath := some (env.devicePath i j) } := by
  unfold innerStep
  rw [if_pos ha, if_pos hq]
  simp [AllocCopyString, hd]

theorem innerStep_hr_mono (env : Env) (i j : Nat) (st : St)
    (hl : env.lastError i j ≠ 0) (h : st.hr ≠ 0) : (innerStep env i j st).hr ≠ 0 := by
  unfold innerStep
  split
  · split
    · simp only []
      split
      · split
        · simpa using h
        · simpa using HRESULT_FROM_WIN32_ne_zero hl
      · simpa using (by decide : E_OUTOFMEMORY ≠ 0)
    · simpa using HRESULT_FROM_WIN32_ne_zero hl
  · simpa using (by decide : E_OUTOFMEMORY ≠ 0)

theorem innerStep_dupFail_hr (env : Env) (i j : Nat) (st : St)
    (ha : env.detailAllocOk i j = true) (hq : env.detailQueryOk i j = true)
    (hd : env.dupOk i j = false) :
    (innerStep env i j st).hr = E_OUTOFMEMORY := by
  unfold innerStep
  rw [if_pos ha, if_pos hq]
  simp [AllocCopyString, hd]

theorem innerLoopAux_zero (env : Env) (i : Nat) (st : St) : innerLoopAux env i 0 st = st := rfl

theorem innerLoopAux_succ (env : Env) (i m : Nat) (st : St) :
    innerLoopAux env i (m + 1) st = innerStep env i m (innerLoopAux env i m st) := by
  simp [innerLoopAux, List.range_succ]

theorem innerLoopAux_guidWrites (env : Env) (i : Nat) :
    ∀ m st, (innerLoopAux env i m st).guidWrites = st.guidWrites := by
  intro m
  induction m with
  | zero => intro st; rfl
  | succ m ih =>
      intro st
      rw [innerLoopAux_succ, innerStep_guidWrites, ih]

theorem innerLoopAux_slots_ne (env : Env) (i : Nat) {k : Nat} (h : k ≠ i) :
    ∀ m st, (innerLoopAux env i m st).slots k = st.slots k := by
  intro m
  induction m with
  | zero => intro st; rfl
  | succ m ih =>
      intro st
      rw [innerLoopAux_succ, innerStep_slots_ne env i m _ h, ih]

theorem innerLoopAux_guid_self (env : Env) (i : Nat) :
    ∀ m st, ((innerLoopAux env i m st).slots i).guidInterface = (st.slots i).guidInterface := by
  intro m
  induction m with
  | zero => intro st; rfl
  | succ m ih =>
      intro st
      rw [innerLoopAux_succ, innerStep_guid_self, ih]

theorem innerLoopAux_hr_mono (env : Env) (i : Nat) :
    ∀ m st, (∀ j, j < m → env.lastError i j ≠ 0) → st.hr ≠ 0 →
      (innerLoopAux env i m st).hr ≠ 0 := by
  intro m
  induction m with
  | zero => intro st _ h; exact h
  | succ m ih =>
      intro st hl h
      rw [innerLoopAux_succ]
      exact innerStep_hr_mono env i m _ (hl m (by omega))
        (ih st (fun j hj => hl j (by omega)) h)

theorem innerLoopAux_dupFail (env : Env) (i : Nat) :
    ∀ m st j0, j0 < m → env.detailAllocOk i j0 = true → env.detailQueryOk i j0 = true →
      env.dupOk i j0 = false → (∀ j, j < m → env.lastError i j ≠ 0) →
      (innerLoopAux env i m st).hr ≠ 0 := by
  intro m
  induction m with
  | zero => intro st j0 hj; omega
  | succ m ih =>
      intro st j0 hj ha hq hd hl
      rw [innerLoopAux_succ]
      rcases Nat.lt_or_ge j0 m with hlt | hge
      · exact innerStep_hr_mono env i m _ (hl m (by omega))
          (ih st j0 hlt ha hq hd (fun j hj => hl j (by omega)))
      · have hj0 : j0 = m := by omega
        subst hj0
        rw [innerStep_dupFail_hr env i j0 _ ha hq hd]
        decide

theorem innerLoopAux_clean_hr (env : Env) (i : Nat) :
    ∀ m st, (∀ j, j < m →
        env.detailAllocOk i j = true ∧ env.detailQueryOk i j = true ∧
        env.dupOk i j = true ∧ env.createFileOk i j = true) →
      (innerLoopAux env i m st).hr = st.hr := by
  intro m
  induction m with
  | zero => intro st _; rfl
  | succ m ih =>
      intro st hc
      obtain ⟨ha, hq, hd, hcf⟩ := hc m (by omega)
      rw [innerLoopAux_succ, innerStep_clean_hr env i m _ ha hq hd hcf,
        ih st (fun j hj => hc j (by omega))]

theorem innerLoopAux_clean_slot (env : Env) (i : Nat) :
    ∀ m st, (∀ j, j < m →
        env.detailAllocOk i j = true ∧ env.detailQueryOk i j = true ∧
        env.dupOk i j = true ∧ env.createFileOk i j = true) →
      0 < m →
      (innerLoopAux env i m st).slots i =
        { guidInterface := (st.slots i).guidInterface,
          wszInterfacePath := some (env.devicePath i (m - 1)) } := by
  intro m
  induction m with
  | zero => intro st _ h; omega
  | succ m _ =>
      intro st hc _
      obtain ⟨ha, hq, hd, _⟩ := hc m (by omega)
      rw [innerLoopAux_succ, innerStep_clean_slots env i m _ ha hq hd]
      simp [innerLoopAux_guid_self]

theorem innerLoopAux_events (env : Env) (i : Nat) :
    ∀ m st, ∃ δ,
      (innerLoopAux env i m st).events = st.events ++ δ ∧
      δ.countP isFreeDetail = δ.countP isAllocDetailOk ∧
      δ.countP isCloseSession = 0 ∧
      δ.countP isOpenSessionOk = 0 ∧
      ∀ d, δ.countP (isAllocDetailOf d) = if i = d then m else 0 := by
  intro m
  induction m with
  | zero =>
      intro st
      exact ⟨[], by simp [innerLoopAux_zero], by simp, by simp, by simp, fun d => by simp⟩
  | succ m ih =>
      intro st
      obtain ⟨δ, h1, h2, h3, h4, h5⟩ := ih st
      rw [innerLoopAux_succ]
      by_cases hA : env.detailAllocOk i m = true
      · refine ⟨δ ++ [Event.allocDetail i m true, Event.freeDetail i m], ?_, ?_, ?_, ?_, ?_⟩
        · rw [innerStep_events_allocOk env i m _ hA, h1, List.append_assoc]
        · simp [List.countP_append, h2, isFreeDetail, isAllocDetailOk, List.countP_cons]
        · simp [List.countP_append, h3, isCloseSession, List.countP_cons]
        · simp [List.countP_append, h4, isOpenSessionOk, List.countP_cons]
        · intro d
          rw [List.countP_append, h5 d]
          by_cases hid : i = d
          · subst hid; simp [isAllocDetailOf, List.countP_cons]
          · simp [isAllocDetailOf, List.countP_cons, hid]
      · refine ⟨δ ++ [Event.allocDetail i m false], ?_, ?_, ?_, ?_, ?_⟩
        · rw [innerStep_events_allocFail env i m _ (by simpa using hA), h1, List.append_assoc]
        · simp [List.countP_append, h2, isFreeDetail, isAllocDetailOk, List.countP_cons]
        · simp [List.countP_append, h3, isCloseSession, List.countP_cons]
        · simp [List.countP_append, h4, isOpenSessionOk, List.countP_cons]
        · intro d
          rw [List.countP_append, h5 d]
          by_cases hid : i = d
          · subst hid; simp [isAllocDetailOf, List.countP_cons]
          · simp [isAllocDetailOf, List.countP_cons, hid]

theorem fillLoop_zero (env : Env) (guid i : Nat) (st : St) :
    fillLoop env guid 0 i st = if st.hr ≠ 0 then st else writeGuid guid i st := rfl

theorem fillLoop_succ (env : Env) (guid r i : Nat) (st : St) :
    fillLoop env guid (r + 1) i st =
      if st.hr ≠ 0 then st
      else fillLoop env guid r (i + 1) (innerLoop env i (writeGuid guid i st)) := rfl

theorem fillLoop_stop (env : Env) (guid : Nat) (remaining i : Nat) (st : St) (h : st.hr ≠ 0) :
    fillLoop env guid remaining i st = st := by
  cases remaining
  · rw [fillLoop_zero, if_pos h]
  · rw [fillLoop_succ, if_pos h]

theorem fillLoop_slots_lt (env : Env) (guid : Nat) :
    ∀ remaining i st k, k < i → (fillLoop env guid remaining i st).slots k = st.slots k := by
  intro remaining
  induction remaining with
  | zero =>
      intro i st k hk
      rw [fillLoop_zero]
      split
      · rfl
      · exact writeGuid_slots_ne guid i st (by omega)
  | succ r ih =>
      intro i st k hk
      rw [fillLoop_succ]
      split
      · rfl
      · rw [ih (i + 1) _ k (by omega), innerLoop,
          innerLoopAux_slots_ne env i (by omega : k ≠ i),
          writeGuid_slots_ne guid i st (by omega)]

theorem fillLoop_slots_gt (env : Env) (guid : Nat) :
    ∀ remaining i st k, i + remaining < k →
      (fillLoop env guid remaining i st).slots k = st.slots k := by
  intro remaining
  induction remaining with
  | zero =>
      intro i st k hk
      rw [fillLoop_zero]
      split
      · rfl
      · exact writeGuid_slots_ne guid i st (by omega)
  | succ r ih =>
      intro i st k hk
      rw [fillLoop_succ]
      split
      · rfl
      · rw [ih (i + 1) _ k (by omega), innerLoop,
          innerLoopAux_slots_ne env i (by omega : k ≠ i),
          writeGuid_slots_ne guid i st (by omega)]

theorem fillLoop_success (env : Env) (guid : Nat) :
    ∀ remaining i st, (fillLoop env guid remaining i st).hr = 0 →
      (fillLoop env guid remaining i st).guidWrites =
          st.guidWrites ++ List.range' i (remaining + 1) ∧
      (∀ k, i ≤ k → k ≤ i + remaining →
        ((fillLoop env guid remaining i st).slots k).guidInterface = guid) ∧
      (∀ k, i ≤ k → k < i + remaining → env.nInterfaces k = 0 →
        ((fillLoop env guid remaining i st).slots k).wszInterfacePath =
          (st.slots k).wszInterfacePath) := by
  intro remaining
  induction remaining with
  | zero =>
      intro i st hF
      by_cases h : st.hr = 0
      · rw [fillLoop_zero, if_neg (by simpa using h)] at hF ⊢
        refine ⟨by simp [writeGuid_guidWrites], ?_, ?_⟩
        · intro k hk1 hk2
          have hk : k = i := by omega
          subst hk
          rw [writeGuid_slots_self]
        · intro k hk1 hk2
          omega
      · rw [fillLoop_stop env guid 0 i st h] at hF
        exact absurd hF h
  | succ r ih =>
      intro i st hF
      by_cases h : st.hr = 0
      · rw [fillLoop_succ, if_neg (by simpa using h)] at hF ⊢
        obtain ⟨ih1, ih2, ih3⟩ := ih (i + 1) (innerLoop env i (writeGuid guid i st)) hF
        refine ⟨?_, ?_, ?_⟩
        · rw [ih1, innerLoop, innerLoopAux_guidWrites, writeGuid_guidWrites,
            List.append_assoc]
          rfl
        · intro k hk1 hk2
          rcases Nat.eq_or_lt_of_le hk1 with hk | hk
          · rw [← hk, fillLoop_slots_lt env guid r (i + 1) _ i (by omega), innerLoop,
              innerLoopAux_guid_self, writeGuid_slots_self]
          · exact ih2 k (by omega) (by omega)
        · intro k hk1 hk2 hk0
          rcases Nat.eq_or_lt_of_le hk1 with hk | hk
          · rw [← hk] at hk0 ⊢
            rw [fillLoop_slots_lt env guid r (i + 1) _ i (by omega), innerLoop, hk0,
              innerLoopAux_zero, writeGuid_slots_self]
          · rw [ih3 k (by omega) (by omega) hk0, innerLoop,
              innerLoopAux_slots_ne env i (by omega : k ≠ i),
              writeGuid_slots_ne guid i st (by omega)]
      · rw [fillLoop_stop env guid (r + 1) i st h] at hF
        exact absurd hF h

theorem fillLoop_clean (env : Env) (guid : Nat) :
    ∀ remaining i st, st.hr = 0 →
      (∀ k, i ≤ k → k < i + remaining → deviceClean env k) →
      (fillLoop env guid remaining i st).hr = 0 ∧
      (∀ k, i ≤ k → k < i + remaining →
        (fillLoop env guid remaining i st).slots k =
          { guidInterface := guid,
            wszInterfacePath :=
              if env.nInterfaces k = 0 then (st.slots k).wszInterfacePath
              else some (env.devicePath k (env.nInterfaces k - 1)) }) ∧
      (∀ d, (fillLoop env guid remaining i st).events.countP (isAllocDetailOf d) =
        st.events.countP (isAllocDetailOf d) +
          if i ≤ d ∧ d < i + remaining then env.nInterfaces d else 0) := by
  intro remaining
  induction remaining with
  | zero =>
      intro i st h0 _
      rw [fillLoop_zero, if_neg (by simpa using h0)]
      refine ⟨h0, ?_, ?_⟩
      · intro k hk1 hk2; omega
      · intro d
        rw [writeGuid_events]
        have : ¬(i ≤ d ∧ d < i + 0) := by omega
        rw [if_neg this]
        omega
  | succ r ih =>
      intro i st h0 hc
      rw [fillLoop_succ, if_neg (by simpa using h0)]
      have hci : deviceClean env i := hc i (by omega) (by omega)
      have h1 : (writeGuid guid i st).hr = 0 := by rw [writeGuid_hr]; exact h0
      have h2 : (innerLoop env i (writeGuid guid i st)).hr = 0 := by
        rw [innerLoop, innerLoopAux_clean_hr env i _ _ hci]
        exact h1
      obtain ⟨ihHr, ihSlots, ihEv⟩ :=
        ih (i + 1) (innerLoop env i (writeGuid guid i st)) h2
          (fun k hk1 hk2 => hc k (by omega) (by omega))
      refine ⟨ihHr, ?_, ?_⟩
      · intro k hk1 hk2
        rcases Nat.eq_or_lt_of_le hk1 with hk | hk
        · rw [← hk]
          rw [fillLoop_slots_lt env guid r (i + 1) _ i (by omega), innerLoop]
          by_cases hm : env.nInterfaces i = 0
          · rw [hm, innerLoopAux_zero, writeGuid_slots_self]
            simp
          · rw [innerLoopAux_clean_slot env i _ _ hci (by omega), writeGuid_slots_self,
              if_neg hm]
        · rw [ihSlots k (by omega) (by omega), innerLoop,
            innerLoopAux_slots_ne env i (by omega : k ≠ i),
            writeGuid_slots_ne guid i st (by omega)]
      · intro d
        rw [ihEv d]
        obtain ⟨δ, hδ, _, _, _, hδc⟩ :=
          innerLoopAux_events env i (env.nInterfaces i) (writeGuid guid i st)
        rw [innerLoop, hδ, writeGuid_events, List.countP_append, hδc d]
        by_cases hid : i = d
        · rw [← hid]
          have ha : ¬(i + 1 ≤ i ∧ i < i + 1 + r) := by omega
          have hb : i ≤ i ∧ i < i + (r + 1) := by omega
          rw [if_pos rfl, if_neg ha, if_pos hb]
          omega
        · rw [if_neg hid]
          have : (i + 1 ≤ d ∧ d < i + 1 + r) ↔ (i ≤ d ∧ d < i + (r + 1)) := by omega
          rw [if_congr this rfl rfl]
          omega

theorem fillLoop_failAt (env : Env) (guid : Nat) :
    ∀ d remaining i st, st.hr = 0 →
      (∀ k, i ≤ k → k < i + d → deviceClean env k) →
      d < remaining →
      (∃ j0, j0 < env.nInterfaces (i + d) ∧ env.detailAllocOk (i + d) j0 = true ∧
        env.detailQueryOk (i + d) j0 = true ∧ env.dupOk (i + d) j0 = false) →
      (∀ j, j < env.nInterfaces (i + d) → env.lastError (i + d) j ≠ 0) →
      (fillLoop env guid remaining i st).hr ≠ 0 ∧
      (∀ k, i + d < k → (fillLoop env guid remaining i st).slots k = st.slots k) ∧
      ((fillLoop env guid remaining i st).events.countP (isAllocDetailOf (i + d)) =
        st.events.countP (isAllocDetailOf (i + d)) + env.nInterfaces (i + d)) := by
  intro d
  induction d with
  | zero =>
      intro remaining i st h0 _ hrem hfail hlast
      obtain ⟨r, hr⟩ : ∃ r, remaining = r + 1 := ⟨remaining - 1, by omega⟩
      subst hr
      rw [fillLoop_succ, if_neg (by simpa using h0)]
      obtain ⟨j0, hj0, ha, hq, hd⟩ := hfail
      have hfailHr : (innerLoop env i (writeGuid guid i st)).hr ≠ 0 := by
        rw [innerLoop]
        exact innerLoopAux_dupFail env i _ _ j0 (by simpa using hj0) (by simpa using ha)
          (by simpa using hq) (by simpa using hd) (by simpa using hlast)
      rw [fillLoop_stop env guid r (i + 1) _ hfailHr]
      refine ⟨hfailHr, ?_, ?_⟩
      · intro k hk
        rw [innerLoop, innerLoopAux_slots_ne env i (by omega : k ≠ i),
          writeGuid_slots_ne guid i st (by omega)]
      · obtain ⟨δ, hδ, _, _, _, hδc⟩ :=
          innerLoopAux_events env i (env.nInterfaces i) (writeGuid guid i st)
        rw [innerLoop, hδ, writeGuid_events, List.countP_append, hδc (i + 0)]
        simp
  | succ d ih =>
      intro remaining i st h0 hc hrem hfail hlast
      obtain ⟨r, hr⟩ : ∃ r, remaining = r + 1 := ⟨remaining - 1, by omega⟩
      subst hr
      rw [fillLoop_succ, if_neg (by simpa using h0)]
      have hci : deviceClean env i := hc i (by omega) (by omega)
      have h2 : (innerLoop env i (writeGuid guid i st)).hr = 0 := by
        rw [innerLoop, innerLoopAux_clean_hr env i _ _ hci, writeGuid_hr]
        exact h0
      have hidx : i + (d + 1) = (i + 1) + d := by omega
      rw [hidx] at hfail hlast ⊢
      obtain ⟨ihHr, ihSlots, ihEv⟩ :=
        ih r (i + 1) (innerLoop env i (writeGuid guid i st)) h2
          (fun k hk1 hk2 => hc k (by omega) (by omega)) (by omega) hfail hlast
      refine ⟨ihHr, ?_, ?_⟩
      · intro k hk
        rw [ihSlots k (by omega), innerLoop,
          innerLoopAux_slots_ne env i (by omega : k ≠ i),
          writeGuid_slots_ne guid i st (by omega)]
      · rw [ihEv]
        obtain ⟨δ, hδ, _, _, _, hδc⟩ :=
          innerLoopAux_events env i (env.nInterfaces i) (writeGuid guid i st)
        rw [innerLoop, hδ, writeGuid_events, List.countP_append, hδc (i + 1 + d)]
        rw [if_neg (by omega : ¬i = i + 1 + d)]
        omega

theorem innerStep_createFileFail_hr (env : Env) (i j : Nat) (st : St)
    (ha : env.detailAllocOk i j = true) (hq : env.detailQueryOk i j = true)
    (hd : env.dupOk i j = true) (hc : env.createFileOk i j = false) :
    (innerStep env i j st).hr = HRESULT_FROM_WIN32 (env.lastError i j) := by
  unfold innerStep
  rw [if_pos ha, if_pos hq]
  simp [AllocCopyString, hd, hc]

theorem fillLoop_events (env : Env) (guid : Nat) :
    ∀ remaining i st, ∃ δ,
      (fillLoop env guid remaining i st).events = st.events ++ δ ∧
      δ.countP isFreeDetail = δ.countP isAllocDetailOk ∧
      δ.countP isCloseSession = 0 ∧
      δ.countP isOpenSessionOk = 0 := by
  intro remaining
  induction remaining with
  | zero =>
      intro i st
      refine ⟨[], ?_, by simp, by simp, by simp⟩
      rw [fillLoop_zero]
      split
      · simp
      · rw [writeGuid_events]; simp
  | succ r ih =>
      intro i st
      rw [fillLoop_succ]
      split
      · exact ⟨[], by simp, by simp, by simp, by simp⟩
      · obtain ⟨δ₁, h1, h2, h3, h4, _⟩ :=
          innerLoopAux_events env i (env.nInterfaces i) (writeGuid guid i st)
        obtain ⟨δ₂, g1, g2, g3, g4⟩ :=
          ih (i + 1) (innerLoop env i (writeGuid guid i st))
        refine ⟨δ₁ ++ δ₂, ?_, ?_, ?_, ?_⟩
        · rw [g1, innerLoop, h1, writeGuid_events, List.append_assoc]
        · rw [List.countP_append, List.countP_append, h2, g2]
        · rw [List.countP_append, h3, g3]
        · rw [List.countP_append, h4, g4]

theorem fillLoop_events_countLow (env : Env) (guid : Nat) {d : Nat} :
    ∀ remaining i st, d < i →
      (fillLoop env guid remaining i st).events.countP (isAllocDetailOf d) =
        st.events.countP (isAllocDetailOf d) := by
  intro remaining
  induction remaining with
  | zero =>
      intro i st hd
      rw [fillLoop_zero]
      split
      · rfl
      · rw [writeGuid_events]
  | succ r ih =>
      intro i st hd
      rw [fillLoop_succ]
      split
      · rfl
      · rw [ih (i + 1) _ (by omega)]
        obtain ⟨δ, h1, _, _, _, h5⟩ :=
          innerLoopAux_events env i (env.nInterfaces i) (writeGuid guid i st)
        rw [innerLoop, h1, writeGuid_events, List.countP_append, h5 d,
          if_neg (by omega : ¬i = d)]
        omega

theorem fillLoop_cleanUpTo (env : Env) (guid : Nat) :
    ∀ d remaining i st, st.hr = 0 →
      (∀ k, i ≤ k → k ≤ i + d → deviceClean env k) →
      d < remaining →
      ((fillLoop env guid remaining i st).slots (i + d) =
        { guidInterface := guid,
          wszInterfacePath :=
            if env.nInterfaces (i + d) = 0 then (st.slots (i + d)).wszInterfacePath
            else some (env.devicePath (i + d) (env.nInterfaces (i + d) - 1)) }) ∧
      ((fillLoop env guid remaining i st).events.countP (isAllocDetailOf (i + d)) =
        st.events.countP (isAllocDetailOf (i + d)) + env.nInterfaces (i + d)) := by
  intro d
  induction d with
  | zero =>
      intro remaining i st h0 hc hrem
      obtain ⟨r, hr⟩ : ∃ r, remaining = r + 1 := ⟨remaining - 1, by omega⟩
      subst hr
      rw [fillLoop_succ, if_neg (by simpa using h0)]
      have hci : deviceClean env i := hc i (by omega) (by omega)
      constructor
      · rw [fillLoop_slots_lt env guid r (i + 1) _ (i + 0) (by omega), innerLoop]
        by_cases hm : env.nInterfaces (i + 0) = 0
        · rw [show i + 0 = i from rfl] at hm ⊢
          rw [hm, innerLoopAux_zero, writeGuid_slots_self]
          simp [hm]
        · rw [show i + 0 = i from rfl] at hm ⊢
          rw [innerLoopAux_clean_slot env i _ _ hci (by omega), writeGuid_slots_self,
            if_neg hm]
      · rw [fillLoop_events_countLow env guid r (i + 1) _ (by omega)]
        obtain ⟨δ, h1, _, _, _, h5⟩ :=
          innerLoopAux_events env i (env.nInterfaces i) (writeGuid guid i st)
        rw [innerLoop, h1, writeGuid_events, List.countP_append, h5 (i + 0)]
        simp
  | succ d ih =>
      intro remaining i st h0 hc hrem
      obtain ⟨r, hr⟩ : ∃ r, remaining = r + 1 := ⟨remaining - 1, by omega⟩
      subst hr
      rw [fillLoop_succ, if_neg (by simpa using h0)]
      have hci : deviceClean env i := hc i (by omega) (by omega)
      have h2 : (innerLoop env i (writeGuid guid i st)).hr = 0 := by
        rw [innerLoop, innerLoopAux_clean_hr env i _ _ hci, writeGuid_hr]
        exact h0
      have hidx : i + (d + 1) = (i + 1) + d := by omega
      rw [hidx]
      obtain ⟨ihSlot, ihEv⟩ :=
        ih r (i + 1) (innerLoop env i (writeGuid guid i st)) h2
          (fun k hk1 hk2 => hc k (by omega) (by omega)) (by omega)
      constructor
      · rw [ihSlot, innerLoop,
          innerLoopAux_slots_ne env i (by omega : i + 1 + d ≠ i),
          writeGuid_slots_ne guid i st (by omega)]
      · rw [ihEv]
        obtain ⟨δ, h1, _, _, _, h5⟩ :=
          innerLoopAux_events env i (env.nInterfaces i) (writeGuid guid i st)
        rw [innerLoop, h1, writeGuid_events, List.countP_append, h5 (i + 1 + d),
          if_neg (by omega : ¬i = i + 1 + d)]
        omega

theorem enum_openFail (env : Env) (guid : Nat) (h : env.openOk = false) :
    EnumerateUSBDevices env guid =
      { success := true, cDevices := 0, devices := none, guidWrites := [],
        events := [Event.openSession false], crashed := false } := by
  simp [EnumerateUSBDevices, h]

theorem enum_ok_success (env : Env) (guid : Nat) (ho : env.openOk = true)
    (ha : env.allocArrayOk = true) :
    (EnumerateUSBDevices env guid).success =
      ((fillLoop env guid env.nDevices 0 initSt).hr == 0) := by
  simp [EnumerateUSBDevices, ho, ha, countDevices_eq]

theorem enum_ok_cDevices (env : Env) (guid : Nat) (ho : env.openOk = true)
    (ha : env.allocArrayOk = true) :
    (EnumerateUSBDevices env guid).cDevices = env.nDevices := by
  simp [EnumerateUSBDevices, ho, ha, countDevices_eq]

theorem enum_ok_devices (env : Env) (guid : Nat) (ho : env.openOk = true)
    (ha : env.allocArrayOk = true) :
    (EnumerateUSBDevices env guid).devices =
      some ((List.range env.nDevices).map (fillLoop env guid env.nDevices 0 initSt).slots) := by
  simp [EnumerateUSBDevices, ho, ha, countDevices_eq]

theorem enum_ok_guidWrites (env : Env) (guid : Nat) (ho : env.openOk = true)
    (ha : env.allocArrayOk = true) :
    (EnumerateUSBDevices env guid).guidWrites =
      (fillLoop env guid env.nDevices 0 initSt).guidWrites := by
  simp [EnumerateUSBDevices, ho, ha, countDevices_eq]

theorem enum_ok_events (env : Env) (guid : Nat) (ho : env.openOk = true)
    (ha : env.allocArrayOk = true) :
    (EnumerateUSBDevices env guid).events =
      (fillLoop env guid env.nDevices 0 initSt).events ++ [Event.closeSession] := by
  simp [EnumerateUSBDevices, ho, ha, countDevices_eq]

theorem enum_allocFail_crash (env : Env) (guid : Nat) (ho : env.openOk = true)
    (ha : env.allocArrayOk = false) (hn : 0 < env.nDevices) :
    EnumerateUSBDevices env guid =
      { success := false, cDevices := 0, devices := none, guidWrites := [],
        events := [Event.openSession true, Event.closeSession],
        crashed := true } := by
  have hne : countDevices env ≠ 0 := by rw [countDevices_eq]; omega
  simp [EnumerateUSBDevices, ho, ha, hne]

theorem enum_allocFail_zeroCount (env : Env) (guid : Nat) (ho : env.openOk = true)
    (ha : env.allocArrayOk = false) (hn : env.nDevices = 0) :
    EnumerateUSBDevices env guid =
      { success := true, cDevices := 0, devices := none, guidWrites := [],
        events := [Event.openSession true, Event.closeSession],
        crashed := false } := by
  have hz : countDevices env = 0 := by rw [countDevices_eq]; exact hn
  simp [EnumerateUSBDevices, ho, ha, hz]

/-- C1: the claim states that when the OS cannot create an enumeration
session, `EnumerateUSBDevices` returns `success = false` (with zero devices
and no output array).  The code does report zero devices and a null array,
but it stores `GetLastError()` into a local variable `err` that is never read
again (line 186) and leaves `hr` at `S_OK`, so the call returns TRUE: this
theorem evaluates the model at a concrete failing input (open failure with
`ERROR_ACCESS_DENIED`) and shows the returned success flag is `true`,
contradicting the claim and the spec sentence that the OS error is
propagated. -/
theorem C1_open_failure_returns_true :
    (EnumerateUSBDevices envOpenFail 1).success = true ∧
    (EnumerateUSBDevices envOpenFail 1).cDevices = 0 ∧
    (EnumerateUSBDevices envOpenFail 1).devices = none ∧
    envOpenFail.openOk = false := by
  decide

/-- C6: the claim (and the spec's fault-injection test) states that when the
output-array allocation fails after a nonzero device count, the call returns
`success = false`, reports zero devices and returns a null output array —
and lines 174-177, which set `hr = E_OUTOFMEMORY` exactly for this case,
show that this is the intended behavior.  The code never reaches them: the
allocation result is passed to `Zero(pResult, cbResult)` at line 100 before
the null test at line 101, so with `pResult = nullptr` and
`cbResult = cDevices * sizeof(EnumeratedUSBDevice) > 0` it executes
`memset(nullptr, 0, cbResult)`, an access violation, and the call crashes
instead of returning.  This theorem evaluates the model at a concrete
failing input (one counted device, failed output-array allocation): the call
crashes — `success = false`, count 0 and the null array are never delivered
to the caller — while the session is still closed during unwind. -/
theorem C6_array_alloc_failure_crashes :
    envArrayAllocFail.openOk = true ∧ envArrayAllocFail.allocArrayOk = false ∧
    0 < envArrayAllocFail.nDevices ∧
    (EnumerateUSBDevices envArrayAllocFail 7).crashed = true ∧
    (EnumerateUSBDevices envArrayAllocFail 7).events =
      [Event.openSession true, Event.closeSession] := by
  decide

/-- C9: for a class identifier matching zero devices (with the session open
and the zero-byte array allocation succeeding), the call returns
`success = true`, an empty output sequence and a device count of 0. -/
theorem C9_zero_devices (env : Env) (guid : Nat)
    (ho : env.openOk = true) (ha : env.allocArrayOk = true)
    (hn : env.nDevices = 0) :
    (EnumerateUSBDevices env guid).success = true ∧
    (EnumerateUSBDevices env guid).cDevices = 0 ∧
    (EnumerateUSBDevices env guid).devices = some [] := by
  refine ⟨?_, ?_, ?_⟩
  · rw [enum_ok_success env guid ho ha, hn]
    rw [fillLoop_zero, if_neg (by simp [initSt])]
    rw [writeGuid_hr]
    rfl
  · rw [enum_ok_cDevices env guid ho ha, hn]
  · rw [enum_ok_devices env guid ho ha, hn]
    rfl

/-- C9 witness: the theorem instantiated at a concrete environment with zero
devices. -/
theorem C9_zero_devices_witness :
    ((happyEnv 0).openOk = true ∧ (happyEnv 0).allocArrayOk = true ∧
      (happyEnv 0).nDevices = 0) ∧
    ((EnumerateUSBDevices (happyEnv 0) 3).success = true ∧
      (EnumerateUSBDevices (happyEnv 0) 3).cDevices = 0 ∧
      (EnumerateUSBDevices (happyEnv 0) 3).devices = some []) :=
  ⟨⟨by decide, by decide, by decide⟩,
    C9_zero_devices (happyEnv 0) 3 (by decide) (by decide) (by decide)⟩

/-- C2: in the fill pass the class-identifier assignment (line 107) precedes
the device-existence check (line 111), so on normal loop termination — a run
whose success flag is true — the loop has performed class-identifier writes
at every index `0, ..., n` while the output array was allocated with exactly
`n` slots: the write at index `n` is one element past the end of the
allocation (and it happens even when `n = 0`, into a zero-byte
allocation). -/
theorem C2_guid_write_past_end (env : Env) (guid : Nat)
    (ho : env.openOk = true) (ha : env.allocArrayOk = true)
    (hs : (EnumerateUSBDevices env guid).success = true) :
    (EnumerateUSBDevices env guid).guidWrites = List.range (env.nDevices + 1) ∧
    env.nDevices ∈ (EnumerateUSBDevices env guid).guidWrites ∧
    ∃ l, (EnumerateUSBDevices env guid).devices = some l ∧ l.length = env.nDevices := by
  have hhr : (fillLoop env guid env.nDevices 0 initSt).hr = 0 := by
    rw [enum_ok_success env guid ho ha] at hs
    simpa using hs
  obtain ⟨h1, _, _⟩ := fillLoop_success env guid env.nDevices 0 initSt hhr
  have hw : (EnumerateUSBDevices env guid).guidWrites = List.range (env.nDevices + 1) := by
    rw [enum_ok_guidWrites env guid ho ha, h1]
    simp [initSt, List.range_eq_range']
  refine ⟨hw, ?_, ?_⟩
  · rw [hw]
    exact List.mem_range.mpr (by omega)
  · exact ⟨_, enum_ok_devices env guid ho ha, by simp⟩

/-- C2 witness: the theorem instantiated at a concrete environment with zero
devices — the class identifier is written at index 0 of a zero-slot (zero
byte) allocation. -/
theorem C2_guid_write_past_end_witness :
    ((happyEnv 0).openOk = true ∧ (happyEnv 0).allocArrayOk = true ∧
      (EnumerateUSBDevices (happyEnv 0) 9).success = true) ∧
    ((EnumerateUSBDevices (happyEnv 0) 9).guidWrites =
        List.range ((happyEnv 0).nDevices + 1) ∧
      (happyEnv 0).nDevices ∈ (EnumerateUSBDevices (happyEnv 0) 9).guidWrites ∧
      ∃ l, (EnumerateUSBDevices (happyEnv 0) 9).devices = some l ∧
        l.length = (happyEnv 0).nDevices) :=
  ⟨⟨by decide, by decide, by decide⟩,
    C2_guid_write_past_end (happyEnv 0) 9 (by decide) (by decide) (by decide)⟩

/-- C3: on every exit path, the enumeration session is closed exactly once
per successful open and the per-interface detail buffer is freed exactly
once per successful detail-buffer allocation: in the event trace of any run,
the number of session-close events equals the number of successful
session-open events, and the number of detail-buffer-free events equals the
number of successful detail-buffer allocations (the `__finally` blocks at
lines 158-161 and 179-183). -/
theorem C3_resource_balance (env : Env) (guid : Nat) :
    (EnumerateUSBDevices env guid).events.countP isCloseSession =
      (EnumerateUSBDevices env guid).events.countP isOpenSessionOk ∧
    (EnumerateUSBDevices env guid).events.countP isFreeDetail =
      (EnumerateUSBDevices env guid).events.countP isAllocDetailOk := by
  by_cases ho : env.openOk = true
  · by_cases ha : env.allocArrayOk = true
    · obtain ⟨δ, h1, h2, h3, h4⟩ := fillLoop_events env guid env.nDevices 0 initSt
      rw [enum_ok_events env guid ho ha, h1]
      constructor
      · simp [List.countP_append, List.countP_cons, initSt, isCloseSession,
          isOpenSessionOk, h3, h4]
      · simp [List.countP_append, List.countP_cons, initSt, isFreeDetail,
          isAllocDetailOk, h2]
    · by_cases hn : env.nDevices = 0
      · rw [enum_allocFail_zeroCount env guid ho (by simpa using ha) hn]
        decide
      · rw [enum_allocFail_crash env guid ho (by simpa using ha) (by omega)]
        decide
  · rw [enum_openFail env guid (by simpa using ho)]
    decide

/-- C4 counterexample: one matching device with zero matching interfaces,
requested class identifier 5.  The returned slot is present and has a null
path, but its class identifier is 5 — the value written by line 107 before
the interface scan — not the zero identifier the claim asserts, so the slot
is not "left in its zeroed state". -/
theorem C4_counterexample :
    envNoInterface.nDevices = 1 ∧ envNoInterface.nInterfaces 0 = 0 ∧
    (EnumerateUSBDevices envNoInterface 5).success = true ∧
    (EnumerateUSBDevices envNoInterface 5).devices =
      some [{ guidInterface := 5, wszInterfacePath := none }] ∧
    ¬(5 : Nat) = 0 := by
  decide

/-- C4 amended: for every device that matches the session filter but exposes
zero matching interfaces (in a run that completes successfully), the
corresponding output slot is still present in the array with a null
interface path, but its class identifier is the requested class identifier
(written by line 107), not zero. -/
theorem C4_interfaceless_device_slot (env : Env) (guid : Nat) (i : Nat)
    (ho : env.openOk = true) (ha : env.allocArrayOk = true)
    (hs : (EnumerateUSBDevices env guid).success = true)
    (hi : i < env.nDevices) (h0 : env.nInterfaces i = 0) :
    ∃ l, (EnumerateUSBDevices env guid).devices = some l ∧
      l.length = env.nDevices ∧
      l[i]? = some { guidInterface := guid, wszInterfacePath := none } := by
  have hhr : (fillLoop env guid env.nDevices 0 initSt).hr = 0 := by
    rw [enum_ok_success env guid ho ha] at hs
    simpa using hs
  obtain ⟨_, h2, h3⟩ := fillLoop_success env guid env.nDevices 0 initSt hhr
  refine ⟨_, enum_ok_devices env guid ho ha, by simp, ?_⟩
  have hg := h2 i (by omega) (by omega)
  have hp := h3 i (by omega) (by omega) h0
  have hslot : (fillLoop env guid env.nDevices 0 initSt).slots i =
      { guidInterface := guid, wszInterfacePath := none } := by
    rcases hq : (fillLoop env guid env.nDevices 0 initSt).slots i with ⟨a, b⟩
    rw [hq] at hg hp
    simp only [initSt, zeroSlot] at hp
    simp at hg hp
    rw [hg, hp]
  rw [List.getElem?_map, List.getElem?_range hi]
  simp [hslot]

/-- C4 amended witness: the amended theorem instantiated at the concrete
environment with one interfaceless device. -/
theorem C4_interfaceless_device_slot_witness :
    (envNoInterface.openOk = true ∧ envNoInterface.allocArrayOk = true ∧
      (EnumerateUSBDevices envNoInterface 5).success = true ∧
      0 < envNoInterface.nDevices ∧ envNoInterface.nInterfaces 0 = 0) ∧
    (∃ l, (EnumerateUSBDevices envNoInterface 5).devices = some l ∧
      l.length = envNoInterface.nDevices ∧
      l[0]? = some { guidInterface := 5, wszInterfacePath := none }) :=
  ⟨⟨by decide, by decide, by decide, by decide, by decide⟩,
    C4_interfaceless_device_slot envNoInterface 5 0 (by decide) (by decide)
      (by decide) (by decide) (by decide)⟩

/-- C5 counterexample: two devices, two interfaces each, the path
duplication for interface 0 of device 0 fails.  The claim says all further
processing stops immediately, in particular that no further interfaces of
the current device are visited or resolved; but the run shows two
detail-buffer allocations for device 0 (both of its interfaces were
visited) and slot 0 ends up holding the resolved path `[1, 2]` of the second
interface — the failure only prevents later devices (slot 1 stays
zeroed). -/
theorem C5_counterexample :
    envDupFail.dupOk 0 0 = false ∧ envDupFail.nInterfaces 0 = 2 ∧
    envDupFail.nDevices = 2 ∧
    (EnumerateUSBDevices envDupFail 5).events.countP (isAllocDetailOf 0) = 2 ∧
    (EnumerateUSBDevices envDupFail 5).devices =
      some [{ guidInterface := 5, wszInterfacePath := some [1, 2] },
            { guidInterface := 0, wszInterfacePath := none }] := by
  decide

/-- C5 amended: if duplicating an interface path fails for device `i` (and
every `GetLastError` value read while processing that device is nonzero, as
the OS guarantees after a failed call), the operation records a fatal error
(`success = false`) and processes no further devices — every slot after `i`
remains zeroed; however, contrary to the original claim, the remaining
interfaces of the current device are still visited and resolved: the run
performs one detail-buffer allocation for every interface of device `i`, and
a later interface's duplicated path may overwrite slot `i`. -/
theorem C5_dup_failure (env : Env) (guid : Nat) (i : Nat)
    (ho : env.openOk = true) (ha : env.allocArrayOk = true)
    (hi : i < env.nDevices)
    (hclean : ∀ k, k < i → deviceClean env k)
    (hfail : ∃ j0, j0 < env.nInterfaces i ∧ env.detailAllocOk i j0 = true ∧
      env.detailQueryOk i j0 = true ∧ env.dupOk i j0 = false)
    (hlast : ∀ j, j < env.nInterfaces i → env.lastError i j ≠ 0) :
    (EnumerateUSBDevices env guid).success = false ∧
    (EnumerateUSBDevices env guid).events.countP (isAllocDetailOf i) =
      env.nInterfaces i ∧
    ∃ l, (EnumerateUSBDevices env guid).devices = some l ∧
      l.length = env.nDevices ∧
      ∀ k, i < k → k < env.nDevices → l[k]? = some zeroSlot := by
  have hz : (0 : Nat) + i = i := by omega
  have H := fillLoop_failAt env guid i env.nDevices 0 initSt rfl
    (fun k hk1 hk2 => hclean k (by omega)) (by omega)
    (by rw [hz]; exact hfail) (by rw [hz]; exact hlast)
  rw [hz] at H
  obtain ⟨Hhr, Hslots, Hev⟩ := H
  refine ⟨?_, ?_, ?_⟩
  · rw [enum_ok_success env guid ho ha]
    simpa using Hhr
  · rw [enum_ok_events env guid ho ha, List.countP_append, Hev]
    simp [initSt, isAllocDetailOf, List.countP_cons]
  · refine ⟨_, enum_ok_devices env guid ho ha, by simp, ?_⟩
    intro k hk1 hk2
    rw [List.getElem?_map, List.getElem?_range hk2]
    simp only [Option.map]
    rw [Hslots k (by omega)]
    rfl

/-- C5 amended witness: the amended theorem instantiated at the concrete
environment where duplication fails at interface 0 of device 0. -/
theorem C5_dup_failure_witness :
    (envDupFail.openOk = true ∧ envDupFail.allocArrayOk = true ∧
      0 < envDupFail.nDevices ∧
      envDupFail.detailAllocOk 0 0 = true ∧ envDupFail.detailQueryOk 0 0 = true ∧
      envDupFail.dupOk 0 0 = false) ∧
    ((EnumerateUSBDevices envDupFail 5).success = false ∧
      (EnumerateUSBDevices envDupFail 5).events.countP (isAllocDetailOf 0) =
        envDupFail.nInterfaces 0 ∧
      ∃ l, (EnumerateUSBDevices envDupFail 5).devices = some l ∧
        l.length = envDupFail.nDevices ∧
        ∀ k, 0 < k → k < envDupFail.nDevices → l[k]? = some zeroSlot) :=
  ⟨⟨by decide, by decide, by decide, by decide, by decide, by decide⟩,
    C5_dup_failure envDupFail 5 0 (by decide) (by decide) (by decide)
      (fun k hk => absurd hk (by omega))
      ⟨0, by decide, by decide, by decide, by decide⟩
      (fun j _ => Nat.one_ne_zero)⟩

/-- C7: when the `CreateFile` probe at line 134 fails (with a nonzero
`GetLastError`) for a device whose enumeration, detail query and path
duplication all succeeded, the call still returns `success = false`, while
the count and the fully populated slot are returned: a false success flag
does not imply an enumeration, allocation or resolution failure. -/
theorem C7_createFile_failure (env : Env) (guid : Nat)
    (ho : env.openOk = true) (ha : env.allocArrayOk = true)
    (hn : env.nDevices = 1) (h1 : env.nInterfaces 0 = 1)
    (hda : env.detailAllocOk 0 0 = true) (hdq : env.detailQueryOk 0 0 = true)
    (hdup : env.dupOk 0 0 = true) (hcf : env.createFileOk 0 0 = false)
    (hl : env.lastError 0 0 ≠ 0) :
    (EnumerateUSBDevices env guid).success = false ∧
    (EnumerateUSBDevices env guid).cDevices = 1 ∧
    (EnumerateUSBDevices env guid).devices =
      some [{ guidInterface := guid,
              wszInterfacePath := some (env.devicePath 0 0) }] := by
  have hF : fillLoop env guid env.nDevices 0 initSt =
      innerStep env 0 0 (writeGuid guid 0 initSt) := by
    rw [hn, fillLoop_succ, if_neg (by simp [initSt]), innerLoop, h1,
      innerLoopAux_succ, innerLoopAux_zero]
    exact fillLoop_stop env guid 0 1 _ (by
      rw [innerStep_createFileFail_hr env 0 0 _ hda hdq hdup hcf]
      exact HRESULT_FROM_WIN32_ne_zero hl)
  have hhr : (fillLoop env guid env.nDevices 0 initSt).hr ≠ 0 := by
    rw [hF, innerStep_createFileFail_hr env 0 0 _ hda hdq hdup hcf]
    exact HRESULT_FROM_WIN32_ne_zero hl
  refine ⟨?_, ?_, ?_⟩
  · rw [enum_ok_success env guid ho ha]
    simpa using hhr
  · rw [enum_ok_cDevices env guid ho ha, hn]
  · rw [enum_ok_devices env guid ho ha, hF, hn,
      innerStep_clean_slots env 0 0 _ hda hdq hdup]
    simp [List.range_succ, writeGuid_slots_self]

/-- C7 witness: the theorem instantiated at the concrete environment where
only the `CreateFile` probe fails. -/
theorem C7_createFile_failure_witness :
    (envCreateFileFail.openOk = true ∧ envCreateFileFail.allocArrayOk = true ∧
      envCreateFileFail.nDevices = 1 ∧ envCreateFileFail.nInterfaces 0 = 1 ∧
      envCreateFileFail.detailAllocOk 0 0 = true ∧
      envCreateFileFail.detailQueryOk 0 0 = true ∧
      envCreateFileFail.dupOk 0 0 = true ∧
      envCreateFileFail.createFileOk 0 0 = false ∧
      envCreateFileFail.lastError 0 0 ≠ 0) ∧
    ((EnumerateUSBDevices envCreateFileFail 4).success = false ∧
      (EnumerateUSBDevices envCreateFileFail 4).cDevices = 1 ∧
      (EnumerateUSBDevices envCreateFileFail 4).devices =
        some [{ guidInterface := 4,
                wszInterfacePath := some (envCreateFileFail.devicePath 0 0) }]) :=
  ⟨⟨by decide, by decide, by decide, by decide, by decide, by decide, by decide,
      by decide, by decide⟩,
    C7_createFile_failure envCreateFileFail 4 (by decide) (by decide) (by decide)
      (by decide) (by decide) (by decide) (by decide) (by decide) (by decide)⟩

/-- C8: for a class identifier matching `n` devices, each exposing exactly
one matching interface with a nonempty path, with every OS query and
allocation succeeding, the call returns `success = true` and an output
sequence of length `n` in which every slot carries the requested class
identifier and the (non-null, nonempty) path of its device's single
interface. -/
theorem C8_happy_path (env : Env) (guid : Nat)
    (ho : env.openOk = true) (ha : env.allocArrayOk = true)
    (h1 : ∀ k, k < env.nDevices → env.nInterfaces k = 1)
    (hc : ∀ k, k < env.nDevices → deviceClean env k)
    (hp : ∀ k, k < env.nDevices → env.devicePath k 0 ≠ []) :
    (EnumerateUSBDevices env guid).success = true ∧
    (EnumerateUSBDevices env guid).cDevices = env.nDevices ∧
    ∃ l, (EnumerateUSBDevices env guid).devices = some l ∧
      l.length = env.nDevices ∧
      ∀ k, k < env.nDevices →
        l[k]? = some { guidInterface := guid,
                       wszInterfacePath := some (env.devicePath k 0) } ∧
        env.devicePath k 0 ≠ [] := by
  obtain ⟨Hhr, Hslots, _⟩ := fillLoop_clean env guid env.nDevices 0 initSt rfl
    (fun k hk1 hk2 => hc k (by omega))
  refine ⟨?_, enum_ok_cDevices env guid ho ha, ?_⟩
  · rw [enum_ok_success env guid ho ha]
    simp [Hhr]
  · refine ⟨_, enum_ok_devices env guid ho ha, by simp, ?_⟩
    intro k hk
    refine ⟨?_, hp k hk⟩
    rw [List.getElem?_map, List.getElem?_range hk]
    simp only [Option.map]
    rw [Hslots k (by omega) (by omega)]
    rw [h1 k hk]
    rfl

/-- C8 witness: the theorem instantiated at a concrete two-device
environment. -/
theorem C8_happy_path_witness :
    ((happyEnv 2).openOk = true ∧ (happyEnv 2).allocArrayOk = true ∧
      (∀ k, k < (happyEnv 2).nDevices → (happyEnv 2).nInterfaces k = 1) ∧
      (∀ k, k < (happyEnv 2).nDevices → deviceClean (happyEnv 2) k) ∧
      (∀ k, k < (happyEnv 2).nDevices → (happyEnv 2).devicePath k 0 ≠ [])) ∧
    ((EnumerateUSBDevices (happyEnv 2) 5).success = true ∧
      (EnumerateUSBDevices (happyEnv 2) 5).cDevices = (happyEnv 2).nDevices ∧
      ∃ l, (EnumerateUSBDevices (happyEnv 2) 5).devices = some l ∧
        l.length = (happyEnv 2).nDevices ∧
        ∀ k, k < (happyEnv 2).nDevices →
          l[k]? = some { guidInterface := 5,
                         wszInterfacePath := some ((happyEnv 2).devicePath k 0) } ∧
          (happyEnv 2).devicePath k 0 ≠ []) :=
  ⟨⟨by decide, by decide, by decide, by decide, by decide⟩,
    C8_happy_path (happyEnv 2) 5 (by decide) (by decide) (by decide) (by decide)
      (by decide)⟩

/-- C10: for a device `i` exposing `m > 1` interfaces matching the requested
class (with every query of devices `0..i` succeeding), the fill pass visits
all `m` interfaces — the run performs one detail-buffer allocation per
interface of device `i` — and each resolved path is stored into the same
slot `i`, so the path remaining in slot `i` after the call is that of the
last matching interface, ordinal `m - 1`. -/
theorem C10_multi_interface_last_wins (env : Env) (guid : Nat) (i : Nat)
    (ho : env.openOk = true) (ha : env.allocArrayOk = true)
    (hi : i < env.nDevices)
    (hc : ∀ k, k ≤ i → deviceClean env k)
    (hm : 2 ≤ env.nInterfaces i) :
    (EnumerateUSBDevices env guid).events.countP (isAllocDetailOf i) =
      env.nInterfaces i ∧
    ∃ l, (EnumerateUSBDevices env guid).devices = some l ∧
      l.length = env.nDevices ∧
      l[i]? = some { guidInterface := guid,
                     wszInterfacePath :=
                       some (env.devicePath i (env.nInterfaces i - 1)) } := by
  have hz : (0 : Nat) + i = i := by omega
  have H := fillLoop_cleanUpTo env guid i env.nDevices 0 initSt rfl
    (fun k hk1 hk2 => hc k (by omega)) (by omega)
  rw [hz] at H
  obtain ⟨Hslot, Hev⟩ := H
  refine ⟨?_, ?_⟩
  · rw [enum_ok_events env guid ho ha, List.countP_append, Hev]
    simp [initSt, isAllocDetailOf, List.countP_cons]
  · refine ⟨_, enum_ok_devices env guid ho ha, by simp, ?_⟩
    rw [List.getElem?_map, List.getElem?_range hi]
    simp only [Option.map]
    rw [Hslot, if_neg (by omega)]

/-- C10 witness: the theorem instantiated at the concrete environment with
one device exposing two interfaces — the slot keeps the second interface's
path. -/
theorem C10_multi_interface_last_wins_witness :
    (envTwoInterfaces.openOk = true ∧ envTwoInterfaces.allocArrayOk = true ∧
      0 < envTwoInterfaces.nDevices ∧ 2 ≤ envTwoInterfaces.nInterfaces 0) ∧
    ((EnumerateUSBDevices envTwoInterfaces 5).events.countP (isAllocDetailOf 0) =
        envTwoInterfaces.nInterfaces 0 ∧
      ∃ l, (EnumerateUSBDevices envTwoInterfaces 5).devices = some l ∧
        l.length = envTwoInterfaces.nDevices ∧
        l[0]? = some { guidInterface := 5,
                       wszInterfacePath :=
                         some (envTwoInterfaces.devicePath 0
                           (envTwoInterfaces.nInterfaces 0 - 1)) }) :=
  ⟨⟨by decide, by decide, by decide, by decide⟩,
    C10_multi_interface_last_wins envTwoInterfaces 5 0 (by decide) (by decide)
      (by decide) (fun k hk => by interval_cases k; decide) (by decide)⟩

end ToolsLibraryHelper
